import Mathlib

/-!
Verification of `src/binja_datatypes/import_dwarf.py`.

The script is a thin orchestration layer over the Binary Ninja API: it
resolves a companion DWARF debug file next to a base binary, triggers the
DWARF import of the platform, and copies the resulting named types and function
signatures into a freshly created type library which is then written to
disk.

The shallow embedding below models:
  * the relevant fragment of Python `pathlib.PurePosixPath` (`name`,
    `suffix`, `with_suffix`) on plain strings (paths are taken in the
    normalized form the script receives them: no trailing slash, no `.`
    components);
  * the filesystem as an existence oracle `String → Bool` (for
    `Path.exists`);
  * Python exceptions as an `Except PyError` result;
  * the opaque Binary Ninja objects (binary views, type objects, the
    type-library registry operations) as explicit data, with the genuinely
    platform-owned computations (loading, DWARF parsing/application,
    `TypeLibrary.finalize`) kept as opaque parameters in `PlatformOps`.
-/

namespace ImportDwarf

/-- Python exception values raised by the script (or by `pathlib`). -/
inductive PyError where
  | fileNotFoundError (msg : String)
  | valueError (msg : String)
  /-- Line 46 `Path(bv.file.filename)` with no base file: in the CLI there is
  no global `bv`, raising `NameError`; inside the Binary Ninja UI with no file
  open, `bv` is `None` and `bv.file` raises `AttributeError`. Both are modelled
  by this constructor. -/
  | nameError (msg : String)
  /-- A failing `assert` statement. -/
  | assertionError (msg : String)
deriving DecidableEq

namespace Pathlib

/-- `PurePosixPath.name`: the final path component (text after the last `/`). -/
def name (p : String) : String :=
  String.mk ((p.data.reverse.takeWhile (fun c => c ≠ '/')).reverse)

/-- `PurePosixPath.suffix`: the extension of the final component, i.e.
`name[i:]` for `i = name.rfind('.')` when `0 < i < len(name) - 1`, else `""`. -/
def suffix (p : String) : String :=
  let n := (name p).data
  let afterDot := n.reverse.takeWhile (fun c => c ≠ '.')
  if afterDot.length = n.length then ""
  else
    let i := n.length - 1 - afterDot.length
    if 0 < i ∧ i + 1 < n.length then String.mk (n.drop i) else ""

/-- `PurePosixPath.with_suffix`: validates the new suffix (no separator, must
start with a dot, not a bare dot), requires a nonempty name, then replaces the
old suffix of the final component (appending when there is none — the uniform
`take (length - old.length)` below covers both branches of the CPython code). -/
def withSuffix (p : String) (sfx : String) : Except PyError String :=
  if sfx.data.contains '/' then
    Except.error (PyError.valueError ("Invalid suffix " ++ sfx))
  else if (sfx ≠ "" ∧ sfx.data.head? ≠ some '.') ∨ sfx = "." then
    Except.error (PyError.valueError ("Invalid suffix " ++ sfx))
  else if name p = "" then
    Except.error (PyError.valueError (p ++ " has an empty name"))
  else
    Except.ok (String.mk (p.data.take (p.data.length - (name p).data.length))
      ++ (String.mk ((name p).data.take ((name p).data.length - (suffix p).data.length))
        ++ sfx))

end Pathlib

/-- The host environment the script runs in: the filesystem existence oracle
(`Path.exists`) and the file currently open in Binary Ninja, if any (the
global `bv`; `none` covers both the CLI, where no `bv` exists at all, and the
UI with no open view). -/
structure HostEnv where
  fs : String → Bool
  openFile : Option String

/-- The path attributes of the importer (`base_file`, `dwarf_file`, `type_archive`
of class `DwarfImporter`; the `logger` attribute only emits log lines and is
not modelled). -/
structure DwarfImporter where
  base_file : String
  dwarf_file : String
  type_archive : String
deriving DecidableEq

/-- `DwarfImporter._find_dwarf_file` (lines 55–63): build
`f"{base_file}.dSYM"`, and if that path exists return
`dsym_path / "Contents" / "Resources" / "DWARF" / base_file.name`;
otherwise raise `FileNotFoundError`. Note the existence check is on the
`.dSYM` directory only, never on the returned inner path. -/
def find_dwarf_file (fs : String → Bool) (base_file : String) : Except PyError String :=
  let dsym_path := base_file ++ ".dSYM"
  if fs dsym_path then
    Except.ok (dsym_path ++ "/" ++ "Contents" ++ "/" ++ "Resources" ++ "/" ++ "DWARF"
      ++ "/" ++ Pathlib.name base_file)
  else
    Except.error (PyError.fileNotFoundError ("Could not find DWARF file for " ++ base_file))

/-- Lines 43–47 of `__init__`: take the given base file; with `None`, read the
filename of the view currently open in Binary Ninja (`bv.file.filename`),
which raises when there is no such view. The `if not self.base_file:` guard on
line 48 can never fire — a `pathlib.Path` object is always truthy — so the
`ValueError` on line 49 is dead code and has no case here. -/
def resolveBase (env : HostEnv) (base_file : Option String) : Except PyError String :=
  match base_file with
  | some b => Except.ok b
  | none =>
    match env.openFile with
    | some f => Except.ok f
    | none => Except.error (PyError.nameError "name bv is not defined")

/-- Line 52: `self.dwarf_file = dwarf_file or self._find_dwarf_file(self.base_file)`
(a `Path` is always truthy, so `or` short-circuits exactly on `None`). -/
def resolveDwarf (env : HostEnv) (base : String) (dwarf_file : Option String) :
    Except PyError String :=
  match dwarf_file with
  | some d => Except.ok d
  | none => find_dwarf_file env.fs base

/-- Line 53: `self.type_archive = type_archive or self.base_file.with_suffix(".bntl")`. -/
def resolveArchive (base : String) (type_archive : Option String) : Except PyError String :=
  match type_archive with
  | some t => Except.ok t
  | none => Pathlib.withSuffix base ".bntl"

/-- `DwarfImporter.__init__` (lines 42–53): resolve the base file, then the
DWARF file, then the type-archive output path, in that order; any raise
aborts construction. -/
def DwarfImporter.init (env : HostEnv) (base_file dwarf_file type_archive : Option String) :
    Except PyError DwarfImporter :=
  match resolveBase env base_file with
  | Except.error e => Except.error e
  | Except.ok base =>
    match resolveDwarf env base dwarf_file with
    | Except.error e => Except.error e
    | Except.ok dwarf =>
      match resolveArchive base type_archive with
      | Except.error e => Except.error e
      | Except.ok ta =>
        Except.ok { base_file := base, dwarf_file := dwarf, type_archive := ta }

/-- An opaque Binary Ninja type object (a `types.Type`); only its identity
matters to the script, which copies such objects around unchanged. -/
structure BNType where
  id : Nat
deriving DecidableEq

/-- A function in the analysis view: its name and its type (signature). -/
structure BNFunction where
  name : String
  type : BNType
deriving DecidableEq

/-- The observable part of a `BinaryView` the script reads: `file.filename`,
`arch`, `platform` (each `none` when the platform reports no value — the
script `assert`s on them), the named types (`bv.types.items()`) and the
functions (`bv.functions`). -/
structure BinaryView where
  filename : String
  arch : Option String
  platform : Option String
  types : List (String × BNType)
  functions : List BNFunction
deriving DecidableEq

/-- The observable state of a `binaryninja.TypeLibrary` built by the script:
what was passed to `new` plus the registries the `add_*` calls populate. -/
structure TypeLibrary where
  arch : String
  name : String
  platforms : List String
  alternate_names : List String
  named_types : List (String × BNType)
  named_objects : List (String × BNType)
deriving DecidableEq

/-- `binaryninja.TypeLibrary.new(arch, name)`: a fresh, empty library. -/
def TypeLibrary.new (arch : String) (name : String) : TypeLibrary :=
  { arch := arch, name := name, platforms := [], alternate_names := [],
    named_types := [], named_objects := [] }

/-- `TypeLibrary.add_platform`. -/
def TypeLibrary.add_platform (tl : TypeLibrary) (p : String) : TypeLibrary :=
  { tl with platforms := tl.platforms ++ [p] }

/-- `TypeLibrary.add_alternate_name`. -/
def TypeLibrary.add_alternate_name (tl : TypeLibrary) (n : String) : TypeLibrary :=
  { tl with alternate_names := tl.alternate_names ++ [n] }

/-- `TypeLibrary.add_named_type(name, type)`: register a type under its name. -/
def TypeLibrary.add_named_type (tl : TypeLibrary) (n : String) (t : BNType) : TypeLibrary :=
  { tl with named_types := tl.named_types ++ [(n, t)] }

/-- `TypeLibrary.add_named_object(name, type)`: register a function signature
under the name of the function. -/
def TypeLibrary.add_named_object (tl : TypeLibrary) (n : String) (t : BNType) : TypeLibrary :=
  { tl with named_objects := tl.named_objects ++ [(n, t)] }

/-- The platform-owned computations the script merely invokes, kept opaque:
`binaryninja.load` on the DWARF file, the combined effect on the base view of
`parse_debug_info` + `apply_debug_info` + `update_analysis_and_wait`
(lines 67–72), and the success of `TypeLibrary.finalize` (line 96). -/
structure PlatformOps where
  loadDwarf : String → BinaryView
  parseApplyAnalyze : BinaryView → BinaryView → BinaryView
  finalizeOk : TypeLibrary → Bool

/-- The runtime state of the importer: the loaded base view (`base_binaryview`,
a `cached_property`), the `functools.cache` memo flag on
`import_debug_info`, and a ghost counter of how many times the
load/parse/apply/analyze sequence has actually executed. -/
structure RunState where
  base_binaryview : BinaryView
  import_done : Bool
  import_runs : Nat

/-- `DwarfImporter.import_debug_info` (lines 65–72). The `@cache` decorator
memoizes the nullary method per importer instance: once it has run, every
later call returns immediately without re-running the body. -/
def import_debug_info (plat : PlatformOps) (dwarf_file : String) (s : RunState) : RunState :=
  if s.import_done then s
  else
    { base_binaryview := plat.parseApplyAnalyze s.base_binaryview (plat.loadDwarf dwarf_file),
      import_done := true,
      import_runs := s.import_runs + 1 }

/-- The pure part of `DwarfImporter.export_type_library` (lines 77–100),
computed from the post-import base view: assert `arch` and `platform`, create
a library named `f"{filename}_{arch}_types"` (with `filename` the name of
`Path(self.base_binaryview.file.filename)`), add the platform and the
filename as an alternate name, copy over every named type
(`bv.types.items()`) and every function signature (`bv.functions`), assert
`finalize()`, and pick the output path `output_file or self.type_archive`.
The `write_to_file(str(output_path))` call is modelled by returning the
finished library together with the path it is serialized to. -/
def export_result (plat : PlatformOps) (self : DwarfImporter)
    (output_file : Option String) (bv : BinaryView) :
    Except PyError (TypeLibrary × String) :=
  let filename := Pathlib.name bv.filename
  match bv.arch with
  | none => Except.error (PyError.assertionError "assert arch")
  | some arch =>
    match bv.platform with
    | none => Except.error (PyError.assertionError "assert self.base_binaryview.platform")
    | some platf =>
      let tl0 := TypeLibrary.new arch (filename ++ "_" ++ arch ++ "_types")
      let tl1 := tl0.add_platform platf
      let tl2 := tl1.add_alternate_name filename
      let tl3 := bv.types.foldl (fun acc nt => acc.add_named_type nt.1 nt.2) tl2
      let tl4 := bv.functions.foldl (fun acc f => acc.add_named_object f.name f.type) tl3
      if plat.finalizeOk tl4 then
        Except.ok (tl4, match output_file with
          | some o => o
          | none => self.type_archive)
      else
        Except.error (PyError.assertionError "assert type_library.finalize()")

/-- `DwarfImporter.export_type_library` (lines 74–100): line 75 first runs the
(memoized) debug-info import — the only state effect of the method on the
state — and the rest computes `export_result` from the resulting base view. -/
def export_type_library (plat : PlatformOps) (self : DwarfImporter)
    (output_file : Option String) (s : RunState) :
    RunState × Except PyError (TypeLibrary × String) :=
  let s2 := import_debug_info plat self.dwarf_file s
  (s2, export_result plat self output_file s2.base_binaryview)

/-- The parsed CLI arguments of `main` (lines 106–111): positional
`BASE_FILE`, optional `--dwarf-file`, optional `--type-library`. -/
structure Args where
  BASE_FILE : String
  dwarf_file : Option String
  type_library : Option String

/-- Outcome of `main` up to importer construction: either the argparse
`parser.error` exit on a bad `--type-library` extension (which happens before
any importer is built, any file discovered, or anything loaded), or the
result of constructing the `DwarfImporter` (on whose success
`export_type_library()` is then called — modelled by `export_type_library`). -/
inductive MainOutcome where
  | argError (msg : String)
  | proceed (r : Except PyError DwarfImporter)

/-- `main` (lines 103–118) after argument parsing: lines 114–115 reject a
`--type-library` whose `suffix != ".bntl"` via `parser.error`; otherwise
line 117 constructs the importer. (`args.type_library and ...` short-circuits
exactly on `None`, a `Path` being always truthy.) -/
def main (env : HostEnv) (args : Args) : MainOutcome :=
  match args.type_library with
  | some t =>
    if Pathlib.suffix t ≠ ".bntl" then
      MainOutcome.argError "TYPE_ARCHIVE must have a .bntl extension."
    else
      MainOutcome.proceed (DwarfImporter.init env (some args.BASE_FILE) args.dwarf_file (some t))
  | none =>
    MainOutcome.proceed (DwarfImporter.init env (some args.BASE_FILE) args.dwarf_file none)

/-- The type library the export loop ends up building from a post-import view
`bv` with architecture `arch` and platform `platf` — proven equal below
(`export_result_eq`) to what the `add_*` call sequence of lines 82–94
produces. -/
def exportedLibrary (bv : BinaryView) (arch platf : String) : TypeLibrary :=
  { arch := arch,
    name := Pathlib.name bv.filename ++ "_" ++ arch ++ "_types",
    platforms := [platf],
    alternate_names := [Pathlib.name bv.filename],
    named_types := bv.types,
    named_objects := bv.functions.map (fun f => (f.name, f.type)) }

/-- A small concrete analysis view, used to instantiate theorems on concrete
inputs. -/
def bv0 : BinaryView :=
  { filename := "foo.bin", arch := some "x86_64", platform := some "mac-x86_64",
    types := [("T", ⟨1⟩)], functions := [⟨"f", ⟨2⟩⟩] }

/-- Concrete platform operations: loading yields `bv0`, applying debug info
keeps the view, `finalize` succeeds. -/
def plat0 : PlatformOps :=
  { loadDwarf := fun _ => bv0, parseApplyAnalyze := fun v _ => v, finalizeOk := fun _ => true }

/-- A concrete initial run state: view loaded, import not yet performed. -/
def st0 : RunState := { base_binaryview := bv0, import_done := false, import_runs := 0 }

/-- A concrete importer instance. -/
def imp0 : DwarfImporter :=
  { base_file := "foo.bin",
    dwarf_file := "foo.bin.dSYM/Contents/Resources/DWARF/foo.bin",
    type_archive := "foo.bntl" }

/-! ## General lemmas about the embedding -/

theorem string_append_assoc (a b c : String) : a ++ b ++ c = a ++ (b ++ c) := by
  apply String.ext
  simp

/-- `with_suffix(".bntl")` specialized: the two suffix-validity checks pass
for the literal `".bntl"`, leaving only the empty-name check. -/
theorem withSuffix_bntl_eq (p : String) :
    Pathlib.withSuffix p ".bntl"
      = if Pathlib.name p = "" then
          Except.error (PyError.valueError (p ++ " has an empty name"))
        else
          Except.ok (String.mk (p.data.take (p.data.length - (Pathlib.name p).data.length))
            ++ (String.mk ((Pathlib.name p).data.take
                ((Pathlib.name p).data.length - (Pathlib.suffix p).data.length)) ++ ".bntl")) :=
  rfl

/-- Any successful `with_suffix(".bntl")` result ends in `".bntl"`. -/
theorem withSuffix_bntl_ends (p q : String)
    (h : Pathlib.withSuffix p ".bntl" = Except.ok q) :
    ∃ pre, q = pre ++ ".bntl" := by
  rw [withSuffix_bntl_eq] at h
  by_cases hn : Pathlib.name p = ""
  · rw [if_pos hn] at h; simp at h
  · rw [if_neg hn] at h
    injection h with h2
    exact ⟨String.mk (p.data.take (p.data.length - (Pathlib.name p).data.length))
      ++ String.mk ((Pathlib.name p).data.take
          ((Pathlib.name p).data.length - (Pathlib.suffix p).data.length)),
      by rw [← h2, string_append_assoc]⟩

/-- The type-copy loop of lines 87–89 appends every named type, in order. -/
theorem foldl_add_named_type (l : List (String × BNType)) (tl : TypeLibrary) :
    l.foldl (fun acc nt => acc.add_named_type nt.1 nt.2) tl
      = { tl with named_types := tl.named_types ++ l } := by
  induction l generalizing tl with
  | nil => simp
  | cons nt l ih =>
    rw [List.foldl_cons, ih]
    simp [TypeLibrary.add_named_type]

/-- The function-signature loop of lines 92–94 appends every function, in
order, as a name/type pair. -/
theorem foldl_add_named_object (l : List BNFunction) (tl : TypeLibrary) :
    l.foldl (fun acc f => acc.add_named_object f.name f.type) tl
      = { tl with named_objects := tl.named_objects ++ l.map (fun f => (f.name, f.type)) } := by
  induction l generalizing tl with
  | nil => simp
  | cons f l ih =>
    rw [List.foldl_cons, ih]
    simp [TypeLibrary.add_named_object]

/-- Characterization of `export_result` on a view with both assertions
passing: it builds exactly `exportedLibrary`, then the outcome depends only
on the `finalize` result and the output-path choice. -/
theorem export_result_eq (plat : PlatformOps) (self : DwarfImporter)
    (out : Option String) (fn a p : String)
    (tys : List (String × BNType)) (fns : List BNFunction) :
    export_result plat self out ⟨fn, some a, some p, tys, fns⟩
      = if plat.finalizeOk (exportedLibrary ⟨fn, some a, some p, tys, fns⟩ a p) then
          Except.ok (exportedLibrary ⟨fn, some a, some p, tys, fns⟩ a p,
            match out with
            | some o => o
            | none => self.type_archive)
        else Except.error (PyError.assertionError "assert type_library.finalize()") := by
  unfold export_result exportedLibrary
  simp only [TypeLibrary.new, TypeLibrary.add_platform, TypeLibrary.add_alternate_name,
    foldl_add_named_type, foldl_add_named_object, List.nil_append]

/-- Running the memoized import a second time is a no-op. -/
theorem import_debug_info_idem (plat : PlatformOps) (d : String) (s : RunState) :
    import_debug_info plat d (import_debug_info plat d s) = import_debug_info plat d s := by
  by_cases h : s.import_done = true
  · simp [import_debug_info, h]
  · simp [import_debug_info, h]

/-- Iterating the memoized import `n + 1` times equals running it once. -/
theorem iterate_import_succ (plat : PlatformOps) (d : String) :
    ∀ (n : Nat) (s : RunState),
      (import_debug_info plat d)^[n + 1] s = import_debug_info plat d s := by
  intro n
  induction n with
  | zero => intro s; rfl
  | succ m ih =>
    intro s
    rw [Function.iterate_succ_apply, ih (import_debug_info plat d s)]
    exact import_debug_info_idem plat d s

/-- One call executes the load/parse/apply/analyze sequence at most once. -/
theorem import_runs_le (plat : PlatformOps) (d : String) (s : RunState) :
    (import_debug_info plat d s).import_runs ≤ s.import_runs + 1 := by
  unfold import_debug_info
  split
  · exact Nat.le_succ _
  · exact Nat.le_refl _

/-! ## Claim theorems -/

/-- Claim C1 counterexample. The claim says discovery fails whenever the
sibling path `foo.bin.dSYM/Contents/Resources/DWARF/foo.bin` is absent and
succeeds only when it is present. On a filesystem containing only the
directory `foo.bin.dSYM` — so the sibling DWARF path itself is absent —
`_find_dwarf_file` does not raise: it succeeds, returning that absent path,
because the code only ever checks the `.dSYM` directory. -/
theorem C1_counterexample :
    (fun s => s == "foo.bin.dSYM") "foo.bin.dSYM/Contents/Resources/DWARF/foo.bin" = false
    ∧ find_dwarf_file (fun s => s == "foo.bin.dSYM") "foo.bin"
        = Except.ok "foo.bin.dSYM/Contents/Resources/DWARF/foo.bin" :=
  ⟨rfl, rfl⟩

/-- Claim C1, amended: `_find_dwarf_file` raises the not-found error exactly
when the directory `<file>.dSYM` is absent; when that directory is present it
returns `<file>.dSYM/Contents/Resources/DWARF/<file>` without checking that
this inner path itself exists. -/
theorem C1_discovery_checks_only_dsym_dir (fs : String → Bool) (base : String) :
    (fs (base ++ ".dSYM") = false →
      find_dwarf_file fs base
        = Except.error (PyError.fileNotFoundError ("Could not find DWARF file for " ++ base)))
    ∧ (fs (base ++ ".dSYM") = true →
      find_dwarf_file fs base
        = Except.ok (base ++ ".dSYM" ++ "/" ++ "Contents" ++ "/" ++ "Resources" ++ "/"
            ++ "DWARF" ++ "/" ++ Pathlib.name base)) := by
  constructor
  · intro h; simp [find_dwarf_file, h]
  · intro h; simp [find_dwarf_file, h]

/-- Witness for `C1_discovery_checks_only_dsym_dir` at concrete inputs: both
branches, on an empty filesystem and on a filesystem where every path exists. -/
theorem C1_discovery_checks_only_dsym_dir_witness :
    find_dwarf_file (fun _ => false) "foo.bin"
      = Except.error (PyError.fileNotFoundError ("Could not find DWARF file for " ++ "foo.bin"))
    ∧ find_dwarf_file (fun _ => true) "foo.bin"
      = Except.ok ("foo.bin" ++ ".dSYM" ++ "/" ++ "Contents" ++ "/" ++ "Resources" ++ "/"
          ++ "DWARF" ++ "/" ++ Pathlib.name "foo.bin") :=
  ⟨(C1_discovery_checks_only_dsym_dir (fun _ => false) "foo.bin").1 rfl,
   (C1_discovery_checks_only_dsym_dir (fun _ => true) "foo.bin").2 rfl⟩

/-- Claim C2: for a base file `foo.bin` whose sibling
`foo.bin.dSYM/Contents/Resources/DWARF/foo.bin` exists on disk (the
filesystem being a tree, the containing `foo.bin.dSYM` bundle then exists as
well — both facts are taken as hypotheses), discovery returns exactly that
sibling path. -/
theorem C2_sibling_present_returns_exact_path (fs : String → Bool)
    (_hsib : fs "foo.bin.dSYM/Contents/Resources/DWARF/foo.bin" = true)
    (hdsym : fs "foo.bin.dSYM" = true) :
    find_dwarf_file fs "foo.bin"
      = Except.ok "foo.bin.dSYM/Contents/Resources/DWARF/foo.bin" := by
  have h0 : find_dwarf_file fs "foo.bin"
      = if fs "foo.bin.dSYM" then
          Except.ok "foo.bin.dSYM/Contents/Resources/DWARF/foo.bin"
        else
          Except.error (PyError.fileNotFoundError
            ("Could not find DWARF file for " ++ "foo.bin")) := rfl
  rw [h0, hdsym]
  simp

/-- Witness for `C2_sibling_present_returns_exact_path`: a filesystem holding
the bundle directory and the sibling DWARF file. -/
theorem C2_sibling_present_returns_exact_path_witness :
    ((fun s => s == "foo.bin.dSYM"
        || s == "foo.bin.dSYM/Contents/Resources/DWARF/foo.bin")
      "foo.bin.dSYM/Contents/Resources/DWARF/foo.bin" = true)
    ∧ ((fun s => s == "foo.bin.dSYM"
        || s == "foo.bin.dSYM/Contents/Resources/DWARF/foo.bin") "foo.bin.dSYM" = true)
    ∧ find_dwarf_file (fun s => s == "foo.bin.dSYM"
        || s == "foo.bin.dSYM/Contents/Resources/DWARF/foo.bin") "foo.bin"
      = Except.ok "foo.bin.dSYM/Contents/Resources/DWARF/foo.bin" :=
  ⟨rfl, rfl, C2_sibling_present_returns_exact_path _ rfl rfl⟩

/-- Claim C3: constructing a `DwarfImporter` with a base file and an explicit
`dwarf_file` never invokes discovery — the result does not depend on the
filesystem at all — and the stored `dwarf_file` field is the provided path
unchanged. -/
theorem C3_explicit_dwarf_short_circuits (fs fs' : String → Bool) (bvv : Option String)
    (b d : String) (t : Option String) :
    DwarfImporter.init ⟨fs, bvv⟩ (some b) (some d) t
      = DwarfImporter.init ⟨fs', bvv⟩ (some b) (some d) t
    ∧ ∀ imp : DwarfImporter,
        DwarfImporter.init ⟨fs, bvv⟩ (some b) (some d) t = Except.ok imp →
        imp.dwarf_file = d := by
  constructor
  · rfl
  · intro imp h
    have h' : (match resolveArchive b t with
        | Except.error e => Except.error e
        | Except.ok ta =>
          Except.ok { base_file := b, dwarf_file := d, type_archive := ta }) = Except.ok imp := h
    cases ha : resolveArchive b t with
    | error e => rw [ha] at h'; exact Except.noConfusion h'
    | ok ta =>
      rw [ha] at h'
      have h2 : Except.ok { base_file := b, dwarf_file := d, type_archive := ta }
          = Except.ok imp := h'
      injection h2 with h3
      rw [← h3]

/-- Witness for `C3_explicit_dwarf_short_circuits`: two filesystems that
disagree everywhere give the same construction result, whose `dwarf_file` is
the explicitly provided path. -/
theorem C3_explicit_dwarf_short_circuits_witness :
    DwarfImporter.init ⟨fun _ => false, none⟩ (some "foo.bin") (some "sym.dwarf") none
      = DwarfImporter.init ⟨fun _ => true, none⟩ (some "foo.bin") (some "sym.dwarf") none
    ∧ DwarfImporter.dwarf_file
        { base_file := "foo.bin", dwarf_file := "sym.dwarf", type_archive := "foo.bntl" }
      = "sym.dwarf" :=
  ⟨(C3_explicit_dwarf_short_circuits (fun _ => false) (fun _ => true) none
      "foo.bin" "sym.dwarf" none).1,
   (C3_explicit_dwarf_short_circuits (fun _ => false) (fun _ => true) none
      "foo.bin" "sym.dwarf" none).2
     { base_file := "foo.bin", dwarf_file := "sym.dwarf", type_archive := "foo.bntl" } rfl⟩

/-- Claim C4: a `--type-library` argument whose suffix is not `.bntl` makes
`main` stop with the argparse error — an outcome carrying no importer, taken
before `DwarfImporter` is constructed, so before any discovery, loading or
analysis; the result is the same for every host environment. -/
theorem C4_bad_extension_rejected_before_construction (env : HostEnv) (args : Args)
    (t : String) (ht : args.type_library = some t)
    (hsfx : Pathlib.suffix t ≠ ".bntl") :
    main env args = MainOutcome.argError "TYPE_ARCHIVE must have a .bntl extension." := by
  unfold main
  rw [ht]
  simp only []
  rw [if_pos hsfx]

/-- Witness for `C4_bad_extension_rejected_before_construction`:
`--type-library out.txt` is rejected. -/
theorem C4_bad_extension_rejected_before_construction_witness :
    Args.type_library
        { BASE_FILE := "foo.bin", dwarf_file := none, type_library := some "out.txt" }
      = some "out.txt"
    ∧ Pathlib.suffix "out.txt" ≠ ".bntl"
    ∧ main ⟨fun _ => false, none⟩
        { BASE_FILE := "foo.bin", dwarf_file := none, type_library := some "out.txt" }
      = MainOutcome.argError "TYPE_ARCHIVE must have a .bntl extension." :=
  ⟨rfl, by decide,
   C4_bad_extension_rejected_before_construction ⟨fun _ => false, none⟩ _ "out.txt" rfl
     (by decide)⟩

/-- Claim C5: constructing `DwarfImporter` with no base file while no file is
open in the host raises immediately — the very first statement of `__init__`
fails (as a `NameError`/`AttributeError` from evaluating `bv.file.filename`;
the explicit `ValueError` guard on lines 48–49 is unreachable), so no
discovery or further processing happens and the error propagates. -/
theorem C5_missing_base_file_raises (env : HostEnv) (dwarf_file type_archive : Option String)
    (h : env.openFile = none) :
    DwarfImporter.init env none dwarf_file type_archive
      = Except.error (PyError.nameError "name bv is not defined") := by
  simp [DwarfImporter.init, resolveBase, h]

/-- Witness for `C5_missing_base_file_raises`: concrete environment with no
open file. -/
theorem C5_missing_base_file_raises_witness :
    HostEnv.openFile ⟨fun _ => false, none⟩ = none
    ∧ DwarfImporter.init ⟨fun _ => false, none⟩ none none none
      = Except.error (PyError.nameError "name bv is not defined") :=
  ⟨rfl, C5_missing_base_file_raises ⟨fun _ => false, none⟩ none none rfl⟩

/-- Claim C6: after the debug-info import, `export_type_library` registers
every named type of the analysis view under its name, every function
signature under the function name, and serializes exactly that library to
the chosen output path (`output_file or self.type_archive`). -/
theorem C6_export_registers_types_functions_and_writes (plat : PlatformOps)
    (imp : DwarfImporter) (out : Option String) (s : RunState) (fn a p : String)
    (tys : List (String × BNType)) (fns : List BNFunction)
    (hbv : (import_debug_info plat imp.dwarf_file s).base_binaryview
      = ⟨fn, some a, some p, tys, fns⟩)
    (hfin : plat.finalizeOk (exportedLibrary ⟨fn, some a, some p, tys, fns⟩ a p) = true) :
    (export_type_library plat imp out s).2
      = Except.ok (exportedLibrary ⟨fn, some a, some p, tys, fns⟩ a p,
          match out with
          | some o => o
          | none => imp.type_archive)
    ∧ (exportedLibrary ⟨fn, some a, some p, tys, fns⟩ a p).named_types = tys
    ∧ (exportedLibrary ⟨fn, some a, some p, tys, fns⟩ a p).named_objects
        = fns.map (fun f => (f.name, f.type)) := by
  refine ⟨?_, rfl, rfl⟩
  have h1 : (export_type_library plat imp out s).2
      = export_result plat imp out (import_debug_info plat imp.dwarf_file s).base_binaryview :=
    rfl
  rw [h1, hbv, export_result_eq, if_pos hfin]

/-- Witness for `C6_export_registers_types_functions_and_writes` on the
concrete fixture: the one type and one function are registered and the
library goes to the stored archive path. -/
theorem C6_export_registers_types_functions_and_writes_witness :
    (export_type_library plat0 imp0 none st0).2
      = Except.ok (exportedLibrary bv0 "x86_64" "mac-x86_64", "foo.bntl")
    ∧ (exportedLibrary bv0 "x86_64" "mac-x86_64").named_types = [("T", ⟨1⟩)]
    ∧ (exportedLibrary bv0 "x86_64" "mac-x86_64").named_objects = [("f", ⟨2⟩)] :=
  C6_export_registers_types_functions_and_writes plat0 imp0 none st0
    "foo.bin" "x86_64" "mac-x86_64" [("T", ⟨1⟩)] [⟨"f", ⟨2⟩⟩] rfl rfl

/-- Claim C7: `import_debug_info` is memoized per instance: iterating it any
positive number of times equals calling it once, the underlying
load/parse/apply/analyze sequence runs at most once, and a repeated
`export_type_library` call leaves the run state exactly where the first one
put it. -/
theorem C7_import_debug_info_memoized (plat : PlatformOps) (d : String) (s : RunState)
    (n : Nat) (imp : DwarfImporter) (out out' : Option String) (h : 1 ≤ n) :
    (import_debug_info plat d)^[n] s = import_debug_info plat d s
    ∧ ((import_debug_info plat d)^[n] s).import_runs ≤ s.import_runs + 1
    ∧ (export_type_library plat imp out ((export_type_library plat imp out' s).1)).1
        = (export_type_library plat imp out' s).1 := by
  obtain ⟨m, rfl⟩ : ∃ m, n = m + 1 := ⟨n - 1, (Nat.succ_pred_eq_of_pos h).symm⟩
  refine ⟨iterate_import_succ plat d m s, ?_, ?_⟩
  · rw [iterate_import_succ plat d m s]
    exact import_runs_le plat d s
  · have h1 : (export_type_library plat imp out' s).1
        = import_debug_info plat imp.dwarf_file s := rfl
    have h2 : (export_type_library plat imp out ((export_type_library plat imp out' s).1)).1
        = import_debug_info plat imp.dwarf_file ((export_type_library plat imp out' s).1) :=
      rfl
    rw [h2, h1, import_debug_info_idem]

/-- Witness for `C7_import_debug_info_memoized` at `n = 2` on the concrete
fixture. -/
theorem C7_import_debug_info_memoized_witness :
    (import_debug_info plat0 "sym.dwarf")^[2] st0 = import_debug_info plat0 "sym.dwarf" st0
    ∧ ((import_debug_info plat0 "sym.dwarf")^[2] st0).import_runs ≤ st0.import_runs + 1
    ∧ (export_type_library plat0 imp0 none
          ((export_type_library plat0 imp0 (some "a.bntl") st0).1)).1
        = (export_type_library plat0 imp0 (some "a.bntl") st0).1 :=
  C7_import_debug_info_memoized plat0 "sym.dwarf" st0 2 imp0 none (some "a.bntl") (by decide)

/-- Claim C8: whenever construction succeeds with no `type_archive` given, the
stored output path is `base_file.with_suffix(".bntl")` — the final suffix of
the base file replaced, not appended to — and therefore always ends in
`.bntl`. -/
theorem C8_default_type_archive_bntl (env : HostEnv) (bf df : Option String)
    (imp : DwarfImporter)
    (h : DwarfImporter.init env bf df none = Except.ok imp) :
    Pathlib.withSuffix imp.base_file ".bntl" = Except.ok imp.type_archive
    ∧ ∃ pre, imp.type_archive = pre ++ ".bntl" := by
  unfold DwarfImporter.init at h
  cases hb : resolveBase env bf with
  | error e => rw [hb] at h; simp at h
  | ok base =>
    rw [hb] at h
    simp only [] at h
    cases hd : resolveDwarf env base df with
    | error e => rw [hd] at h; simp at h
    | ok dwarf =>
      rw [hd] at h
      simp only [] at h
      cases ha : resolveArchive base none with
      | error e => rw [ha] at h; simp at h
      | ok t =>
        rw [ha] at h
        simp only [] at h
        injection h with h2
        rw [← h2]
        have hws : Pathlib.withSuffix base ".bntl" = Except.ok t := ha
        exact ⟨hws, withSuffix_bntl_ends base t hws⟩

/-- Witness for `C8_default_type_archive_bntl`: base `foo.bin` defaults to
`foo.bntl` (not `foo.bin.bntl`). -/
theorem C8_default_type_archive_bntl_witness :
    DwarfImporter.init ⟨fun _ => false, none⟩ (some "foo.bin") (some "sym.dwarf") none
      = Except.ok { base_file := "foo.bin", dwarf_file := "sym.dwarf", type_archive := "foo.bntl" }
    ∧ (Pathlib.withSuffix "foo.bin" ".bntl" = Except.ok "foo.bntl"
       ∧ ∃ pre, ("foo.bntl" : String) = pre ++ ".bntl") :=
  ⟨rfl, C8_default_type_archive_bntl ⟨fun _ => false, none⟩ (some "foo.bin")
    (some "sym.dwarf") _ rfl⟩

/-- Claim C9: the `.bntl` requirement lives only in the CLI: the constructor
accepts any `type_archive` path — whatever its suffix — storing it unchanged,
and `export_type_library` writes to any explicit `output_file` exactly as
given, with no extension validation anywhere on either path. -/
theorem C9_extension_checked_only_in_cli (fs : String → Bool) (bvv : Option String)
    (b d t : String) (plat : PlatformOps) (imp : DwarfImporter) (o : String) (s : RunState)
    (fn a p : String) (tys : List (String × BNType)) (fns : List BNFunction)
    (hbv : (import_debug_info plat imp.dwarf_file s).base_binaryview
      = ⟨fn, some a, some p, tys, fns⟩)
    (hfin : plat.finalizeOk (exportedLibrary ⟨fn, some a, some p, tys, fns⟩ a p) = true) :
    DwarfImporter.init ⟨fs, bvv⟩ (some b) (some d) (some t)
      = Except.ok { base_file := b, dwarf_file := d, type_archive := t }
    ∧ (export_type_library plat imp (some o) s).2
      = Except.ok (exportedLibrary ⟨fn, some a, some p, tys, fns⟩ a p, o) := by
  refine ⟨rfl, ?_⟩
  have h1 : (export_type_library plat imp (some o) s).2
      = export_result plat imp (some o)
          (import_debug_info plat imp.dwarf_file s).base_binaryview := rfl
  rw [h1, hbv, export_result_eq, if_pos hfin]

/-- Witness for `C9_extension_checked_only_in_cli`: `out.txt` and `weird.xyz`
do not end in `.bntl`, yet the constructor stores the former and export
writes to the latter. -/
theorem C9_extension_checked_only_in_cli_witness :
    Pathlib.suffix "out.txt" ≠ ".bntl"
    ∧ Pathlib.suffix "weird.xyz" ≠ ".bntl"
    ∧ (DwarfImporter.init ⟨fun _ => false, none⟩ (some "foo.bin") (some "sym.dwarf")
          (some "out.txt")
        = Except.ok
            { base_file := "foo.bin", dwarf_file := "sym.dwarf", type_archive := "out.txt" }
       ∧ (export_type_library plat0 imp0 (some "weird.xyz") st0).2
        = Except.ok (exportedLibrary bv0 "x86_64" "mac-x86_64", "weird.xyz")) :=
  ⟨by decide, by decide,
   C9_extension_checked_only_in_cli (fun _ => false) none "foo.bin" "sym.dwarf" "out.txt"
     plat0 imp0 "weird.xyz" st0 "foo.bin" "x86_64" "mac-x86_64"
     [("T", ⟨1⟩)] [⟨"f", ⟨2⟩⟩] rfl rfl⟩

/-- Claim C10: with an explicit `output_file` the library is serialized to
that path, the stored `type_archive` being ignored (changing it changes
nothing) and never mutated (the importer record is read-only here); with
`output_file` omitted the library is written to the stored `type_archive`. -/
theorem C10_output_file_overrides_stored_archive (plat : PlatformOps)
    (imp : DwarfImporter) (ta' o : String) (s : RunState)
    (fn a p : String) (tys : List (String × BNType)) (fns : List BNFunction)
    (hbv : (import_debug_info plat imp.dwarf_file s).base_binaryview
      = ⟨fn, some a, some p, tys, fns⟩)
    (hfin : plat.finalizeOk (exportedLibrary ⟨fn, some a, some p, tys, fns⟩ a p) = true) :
    (export_type_library plat imp (some o) s).2
      = Except.ok (exportedLibrary ⟨fn, some a, some p, tys, fns⟩ a p, o)
    ∧ export_type_library plat { imp with type_archive := ta' } (some o) s
        = export_type_library plat imp (some o) s
    ∧ (export_type_library plat imp none s).2
      = Except.ok (exportedLibrary ⟨fn, some a, some p, tys, fns⟩ a p, imp.type_archive) := by
  refine ⟨?_, ?_, ?_⟩
  · have h1 : (export_type_library plat imp (some o) s).2
        = export_result plat imp (some o)
            (import_debug_info plat imp.dwarf_file s).base_binaryview := rfl
    rw [h1, hbv, export_result_eq, if_pos hfin]
  · have e1 : export_type_library plat { imp with type_archive := ta' } (some o) s
        = (import_debug_info plat imp.dwarf_file s,
           export_result plat { imp with type_archive := ta' } (some o)
             (import_debug_info plat imp.dwarf_file s).base_binaryview) := rfl
    have e2 : export_type_library plat imp (some o) s
        = (import_debug_info plat imp.dwarf_file s,
           export_result plat imp (some o)
             (import_debug_info plat imp.dwarf_file s).base_binaryview) := rfl
    rw [e1, e2, hbv, export_result_eq, export_result_eq]
  · have h1 : (export_type_library plat imp none s).2
        = export_result plat imp none
            (import_debug_info plat imp.dwarf_file s).base_binaryview := rfl
    rw [h1, hbv, export_result_eq, if_pos hfin]

/-- Witness for `C10_output_file_overrides_stored_archive` on the concrete
fixture: explicit `weird2.xyz` wins over (and is insensitive to) the stored
archive path; with no explicit output the stored `foo.bntl` is used. -/
theorem C10_output_file_overrides_stored_archive_witness :
    (export_type_library plat0 imp0 (some "weird2.xyz") st0).2
      = Except.ok (exportedLibrary bv0 "x86_64" "mac-x86_64", "weird2.xyz")
    ∧ export_type_library plat0 { imp0 with type_archive := "other.bntl" }
          (some "weird2.xyz") st0
        = export_type_library plat0 imp0 (some "weird2.xyz") st0
    ∧ (export_type_library plat0 imp0 none st0).2
      = Except.ok (exportedLibrary bv0 "x86_64" "mac-x86_64", "foo.bntl") :=
  C10_output_file_overrides_stored_archive plat0 imp0 "other.bntl" "weird2.xyz" st0
    "foo.bin" "x86_64" "mac-x86_64" [("T", ⟨1⟩)] [⟨"f", ⟨2⟩⟩] rfl rfl

end ImportDwarf
